import Mathlib

/-!
A verification development for the data-fetching, caching and
normalization layer of the wikidata-visualizations repository
(`src/utils/wikidata.js`).  JavaScript values are shallowly embedded:
SPARQL binding records become association lists from variable names to
value cells, JavaScript numbers become exact rationals extended with the
two infinities (IEEE rounding and overflow-to-infinity are idealized away;
no claim depends on them), the `Math.random` stream and the network become
explicit oracles, and the module-level cache object becomes an explicit
map threaded through calls.
-/

/-- JavaScript number values produced by `Number(string)`, NaN excluded
(an `Option` wraps the parse so `none` plays the role of NaN). -/
inductive JsNum where
  | finite (q : ℚ)
  | posInf
  | negInf
deriving DecidableEq, Repr

/-- ECMAScript `StrWhiteSpaceChar`: WhiteSpace or LineTerminator code
points, the set trimmed by `Number(string)`. -/
def isWsChar (c : Char) : Bool :=
  let n := c.toNat
  n == 9 || n == 10 || n == 11 || n == 12 || n == 13 || n == 32 ||
  n == 160 || n == 0x1680 || (0x2000 ≤ n && n ≤ 0x200A) ||
  n == 0x2028 || n == 0x2029 || n == 0x202F || n == 0x205F ||
  n == 0x3000 || n == 0xFEFF

/-- Drop leading and trailing whitespace from a character list. -/
def wsTrim (l : List Char) : List Char :=
  ((l.dropWhile isWsChar).reverse.dropWhile isWsChar).reverse

/-- Hexadecimal digit test (0-9, a-f, A-F). -/
def isHexDigitCh (c : Char) : Bool :=
  c.isDigit || ('a' ≤ c && c ≤ 'f') || ('A' ≤ c && c ≤ 'F')

/-- Numeric value of a hexadecimal digit. -/
def hexVal (c : Char) : ℕ :=
  if c.isDigit then c.toNat - 48
  else if 'a' ≤ c ∧ c ≤ 'f' then c.toNat - 87
  else c.toNat - 55

/-- Value of a digit string in a given base. -/
def radixVal (base : ℕ) (l : List Char) : ℕ :=
  l.foldl (fun a c => base * a + hexVal c) 0

/-- Value of a decimal digit string. -/
def decDigitsVal (l : List Char) : ℕ :=
  l.foldl (fun a c => 10 * a + (c.toNat - 48)) 0

/-- Parse the exponent part following `e`/`E`: an optional sign and a
nonempty run of decimal digits consuming the whole remainder. -/
def parseExpPart (l : List Char) : Option ℤ :=
  match l with
  | '+' :: r => if r ≠ [] ∧ r.all Char.isDigit then some (decDigitsVal r : ℤ) else none
  | '-' :: r => if r ≠ [] ∧ r.all Char.isDigit then some (-(decDigitsVal r : ℤ)) else none
  | r => if r ≠ [] ∧ r.all Char.isDigit then some (decDigitsVal r : ℤ) else none

/-- Exact value of a decimal literal with integer part `ip`, fraction
part `fp` and decimal exponent `e`, namely `ip.fp × 10^e`, built with
`Rat.divInt` over integer arithmetic (value-equal to the floating-point
literal up to the idealization of rounding). -/
def decLitVal (ip fp : List Char) (e : ℤ) : ℚ :=
  let m : ℤ := (decDigitsVal ip : ℤ) * (10 : ℤ) ^ fp.length + (decDigitsVal fp : ℤ)
  match e with
  | Int.ofNat k => Rat.divInt (m * (10 : ℤ) ^ k) ((10 : ℤ) ^ fp.length)
  | Int.negSucc k => Rat.divInt m ((10 : ℤ) ^ fp.length * (10 : ℤ) ^ (k + 1))

/-- Parse an ECMAScript `StrUnsignedDecimalLiteral`: `Infinity`, or a
decimal literal with optional fraction and exponent, consuming the whole
input. -/
def parseUnsignedNum (l : List Char) : Option JsNum :=
  if l = "Infinity".toList then some JsNum.posInf
  else
    let ip := l.takeWhile Char.isDigit
    match l.dropWhile Char.isDigit with
    | [] => if ip = [] then none else some (JsNum.finite (decDigitsVal ip : ℚ))
    | '.' :: rest2 =>
      let fp := rest2.takeWhile Char.isDigit
      if ip = [] ∧ fp = [] then none
      else
        match rest2.dropWhile Char.isDigit with
        | [] => some (JsNum.finite (decLitVal ip fp 0))
        | c :: rest4 =>
          if c = 'e' ∨ c = 'E' then
            match parseExpPart rest4 with
            | some e => some (JsNum.finite (decLitVal ip fp e))
            | none => none
          else none
    | c :: rest2 =>
      if c = 'e' ∨ c = 'E' then
        if ip = [] then none
        else
          match parseExpPart rest2 with
          | some e => some (JsNum.finite (decLitVal ip [] e))
          | none => none
      else none

/-- Negate a JavaScript number. -/
def negJsNum : JsNum → JsNum
  | JsNum.finite q => JsNum.finite (-q)
  | JsNum.posInf => JsNum.negInf
  | JsNum.negInf => JsNum.posInf

/-- Parse an optionally signed `StrDecimalLiteral`. -/
def parseSignedNum (l : List Char) : Option JsNum :=
  match l with
  | '+' :: r => parseUnsignedNum r
  | '-' :: r => (parseUnsignedNum r).map negJsNum
  | r => parseUnsignedNum r

/-- ECMAScript `StringToNumber` (the semantics of `Number(s)` and hence of
`isNaN(s)` for a string `s`): trim whitespace, empty means zero, then a
hex/octal/binary integer literal or a signed decimal literal; `none` is
NaN. -/
def jsStrToNumber (s : String) : Option JsNum :=
  match wsTrim s.toList with
  | [] => some (JsNum.finite 0)
  | '0' :: x :: r =>
    if x = 'x' ∨ x = 'X' then
      if r ≠ [] ∧ r.all isHexDigitCh then some (JsNum.finite (radixVal 16 r : ℚ)) else none
    else if x = 'o' ∨ x = 'O' then
      if r ≠ [] ∧ r.all (fun c => '0' ≤ c && c ≤ '7') then
        some (JsNum.finite (radixVal 8 r : ℚ))
      else none
    else if x = 'b' ∨ x = 'B' then
      if r ≠ [] ∧ r.all (fun c => c == '0' || c == '1') then
        some (JsNum.finite (radixVal 2 r : ℚ))
      else none
    else parseSignedNum ('0' :: x :: r)
  | t => parseSignedNum t

/-! ## SPARQL binding records and the result normalizer -/

/-- The `value` field of a binding cell: either absent (JS `undefined`)
or a string, as in the SPARQL 1.1 JSON results format. -/
inductive CellVal where
  | undef
  | str (s : String)
deriving DecidableEq

/-- One cell of a binding record: `nullish` models a falsy entry (the
`item[key] &&` guard in the source), `obj v` an object whose `value`
field is `v`. -/
inductive Cell where
  | nullish
  | obj (v : CellVal)
deriving DecidableEq

/-- A SPARQL binding record: variable names mapped to cells, in the
insertion order that `Object.keys` iterates. -/
abbrev BindingRecord := List (String × Cell)

/-- A normalized scalar: a string, or a number when the source converted
it. -/
inductive NormValue where
  | str (s : String)
  | num (x : JsNum)
deriving DecidableEq

/-- A normalized record produced by `processWikidataResults`. -/
abbrev NormRecord := List (String × NormValue)

/-- The argument passed to `processWikidataResults`: `null`, `undefined`,
some other non-array value, or an array of binding records. -/
inductive ResultsValue where
  | jsNull
  | jsUndefined
  | nonArrayValue
  | arr (rs : List BindingRecord)

/-- Lines 141-150 of `wikidata.js` for a single key: copy the string
`value`, then replace it by `Number(value)` when `!isNaN(value)` and the
key is not `id`. -/
def coerceNorm (key s : String) : NormValue :=
  match jsStrToNumber s with
  | some x => if key = "id" then NormValue.str s else NormValue.num x
  | none => NormValue.str s

/-- The per-record body of the `results.map` in `processWikidataResults`:
keys whose cell is falsy or whose `value` is `undefined` are skipped, the
rest are copied through `coerceNorm`. -/
def processItem (item : BindingRecord) : NormRecord :=
  item.filterMap (fun p =>
    match p.2 with
    | Cell.obj (CellVal.str s) => some (p.1, coerceNorm p.1 s)
    | _ => none)

/-- `processWikidataResults` from `wikidata.js` lines 131-154: a guard
returning `[]` for any non-array argument, then a `map` over the
records. -/
def processWikidataResults (results : ResultsValue) : List NormRecord :=
  match results with
  | ResultsValue.arr rs => rs.map processItem
  | _ => []

/-- Whether the source copies this cell: truthy, with a defined
`value`. -/
def definedVal : Cell → Bool
  | Cell.obj (CellVal.str _) => true
  | _ => false

/-! ## The SPARQL client and its mock-data fallback -/

/-- `String.prototype.includes`, decided on the character lists. -/
def listStartsWith : List Char → List Char → Bool
  | _, [] => true
  | [], _ :: _ => false
  | a :: as, b :: bs => a == b && listStartsWith as bs

/-- Whether `pat` occurs as a contiguous run inside `hay`. -/
def hasSubList (hay pat : List Char) : Bool :=
  match hay with
  | [] => listStartsWith [] pat
  | _ :: t => listStartsWith hay pat || hasSubList t pat

/-- JavaScript `s.includes(sub)`. -/
def jsIncludes (s sub : String) : Bool :=
  hasSubList s.toList sub.toList

/-- Wikidata entity URI with a random Q-number, as built by
`Math.floor(Math.random() * 1000000)` in the mock generators; `r` is the
raw `Math.random()` draw. -/
def qEntity (r : ℚ) : String :=
  "http://www.wikidata.org/entity/Q" ++ toString ⌊r * 1000000⌋

/-- The `fields` array of `generateGenderMockData`. -/
def mockFields : List String := ["astronomer", "physicist", "chemist", "programmer"]

/-- The `decades` array of `generateGenderMockData`. -/
def mockDecades : List ℕ := [1800, 1850, 1900, 1950, 2000]

/-- The male record pushed per (field, decade) pair; `rq` is the draw for
the entity id and `rc` the draw for the count. -/
def maleGenderRow (fl : String) (d : ℕ) (rq rc : ℚ) : BindingRecord :=
  [("field", Cell.obj (CellVal.str (qEntity rq))),
   ("fieldLabel", Cell.obj (CellVal.str fl)),
   ("decade", Cell.obj (CellVal.str (toString d))),
   ("gender", Cell.obj (CellVal.str "http://www.wikidata.org/entity/Q6581097")),
   ("genderLabel", Cell.obj (CellVal.str "male")),
   ("count", Cell.obj (CellVal.str (toString ⌊rc * 100 + 50⌋)))]

/-- The female record pushed per (field, decade) pair. -/
def femaleGenderRow (fl : String) (d : ℕ) (rq rc : ℚ) : BindingRecord :=
  [("field", Cell.obj (CellVal.str (qEntity rq))),
   ("fieldLabel", Cell.obj (CellVal.str fl)),
   ("decade", Cell.obj (CellVal.str (toString d))),
   ("gender", Cell.obj (CellVal.str "http://www.wikidata.org/entity/Q6581072")),
   ("genderLabel", Cell.obj (CellVal.str "female")),
   ("count", Cell.obj (CellVal.str (toString ⌊rc * 50 + 5⌋)))]

/-- `generateGenderMockData`: for every field and decade, a male and a
female record; `rng` is the `Math.random` stream, consumed four draws per
(field, decade) pair in source order. -/
def generateGenderMockData (rng : ℕ → ℚ) : List BindingRecord :=
  (((mockFields.map (fun f => mockDecades.map (fun d => (f, d)))).flatten).enum).flatMap
    (fun p =>
      [maleGenderRow p.2.1 p.2.2 (rng (4 * p.1)) (rng (4 * p.1 + 1)),
       femaleGenderRow p.2.1 p.2.2 (rng (4 * p.1 + 2)) (rng (4 * p.1 + 3))])

/-- One row of the fixed `discoveries` table in
`generateDiscoveryMockData`; `lat` and `lon` hold the decimal strings
that `toString()` produces from the numeric literals of the source. -/
structure Discovery where
  name : String
  year : ℕ
  field : String
  location : String
  country : String
  lat : String
  lon : String
  discoverer : String

/-- The `discoveries` table of `generateDiscoveryMockData`. -/
def mockDiscoveries : List Discovery :=
  [⟨"Electromagnetic induction", 1831, "physics", "London", "United Kingdom", "51.5074", "-0.1278", "Michael Faraday"⟩,
   ⟨"X-rays", 1895, "physics", "Würzburg", "Germany", "49.7913", "9.9534", "Wilhelm Röntgen"⟩,
   ⟨"Radioactivity", 1896, "physics", "Paris", "France", "48.8566", "2.3522", "Henri Becquerel"⟩,
   ⟨"Electron", 1897, "physics", "Cambridge", "United Kingdom", "52.2053", "0.1218", "J.J. Thomson"⟩,
   ⟨"DNA structure", 1953, "biology", "Cambridge", "United Kingdom", "52.2053", "0.1218", "Watson and Crick"⟩,
   ⟨"Penicillin", 1928, "medicine", "London", "United Kingdom", "51.5074", "-0.1278", "Alexander Fleming"⟩,
   ⟨"Transistor", 1947, "physics", "New Jersey", "United States", "40.0583", "-74.4057", "Bardeen, Brattain, and Shockley"⟩,
   ⟨"World Wide Web", 1989, "computer science", "Geneva", "Switzerland", "46.2044", "6.1432", "Tim Berners-Lee"⟩,
   ⟨"Periodic table", 1869, "chemistry", "Saint Petersburg", "Russia", "59.9343", "30.3351", "Dmitri Mendeleev"⟩,
   ⟨"Theory of relativity", 1905, "physics", "Bern", "Switzerland", "46.9480", "7.4474", "Albert Einstein"⟩]

/-- The binding record built from one discovery; `r1`, `r2` are the two
`Math.random` draws of the mapping function. -/
def discoveryRow (d : Discovery) (r1 r2 : ℚ) : BindingRecord :=
  [("discovery", Cell.obj (CellVal.str (qEntity r1))),
   ("discoveryLabel", Cell.obj (CellVal.str d.name)),
   ("year", Cell.obj (CellVal.str (toString d.year))),
   ("field", Cell.obj (CellVal.str (qEntity r2))),
   ("fieldLabel", Cell.obj (CellVal.str d.field)),
   ("locationLabel", Cell.obj (CellVal.str d.location)),
   ("countryLabel", Cell.obj (CellVal.str d.country)),
   ("lat", Cell.obj (CellVal.str d.lat)),
   ("lon", Cell.obj (CellVal.str d.lon)),
   ("discovererLabel", Cell.obj (CellVal.str d.discoverer))]

/-- `generateDiscoveryMockData`: the fixed table mapped to binding
records, two random draws per row. -/
def generateDiscoveryMockData (rng : ℕ → ℚ) : List BindingRecord :=
  (mockDiscoveries.enum).map (fun p => discoveryRow p.2 (rng (2 * p.1)) (rng (2 * p.1 + 1)))

/-- `generateMockData` from `wikidata.js` lines 33-40: dispatch on the
query text. -/
def generateMockData (q : String) (rng : ℕ → ℚ) : List BindingRecord :=
  if jsIncludes q "gender" then generateGenderMockData rng
  else if jsIncludes q "discovery" then generateDiscoveryMockData rng
  else []

/-- What the caller of `querySPARQL` can observe on the success path:
the `results.bindings` array, or JS `undefined` when the parsed body has
`results` but no `bindings` field. -/
inductive QueryResult where
  | arr (bs : List BindingRecord)
  | undef
deriving DecidableEq

/-- A thrown JavaScript error: an `Error` with a message, or the
`TypeError` raised by reading a property of `undefined`. -/
inductive JsError where
  | error (msg : String)
  | typeError
deriving DecidableEq

/-- The outcome of the `fetch`/`json()` pipeline for one request, the
nondeterminism of the network made explicit. -/
inductive FetchOutcome where
  | networkError (msg : String)
  | httpError (status : ℕ) (statusText : String)
  | jsonError (msg : String)
  | okNoResults
  | okNoBindings
  | okBindings (bs : List BindingRecord)

/-- The body of the `try` block of `querySPARQL` (lines 6-24): a
non-success status throws the templated error, a reject of `fetch` or
`json()` re-raises, a parsed body without `results` raises a `TypeError`
at `data.results.bindings`, and otherwise the `bindings` field (possibly
`undefined`) is returned. -/
def tryQuerySPARQL (oc : FetchOutcome) : Except JsError QueryResult :=
  match oc with
  | FetchOutcome.networkError m => Except.error (JsError.error m)
  | FetchOutcome.httpError st stx =>
    Except.error (JsError.error ("SPARQL query failed: " ++ toString st ++ " " ++ stx))
  | FetchOutcome.jsonError m => Except.error (JsError.error m)
  | FetchOutcome.okNoResults => Except.error JsError.typeError
  | FetchOutcome.okNoBindings => Except.ok QueryResult.undef
  | FetchOutcome.okBindings bs => Except.ok (QueryResult.arr bs)

/-- `querySPARQL` from `wikidata.js` lines 5-30: the `try` body, with the
`catch` turning every thrown error into the mock fallback.  Totality of
this function is the formal content of "the client never throws". -/
def querySPARQL (q : String) (oc : FetchOutcome) (rng : ℕ → ℚ) : QueryResult :=
  match tryQuerySPARQL oc with
  | Except.ok r => r
  | Except.error _ => QueryResult.arr (generateMockData q rng)

/-- Fetch outcomes on which the `try` body throws, i.e. those the
`catch` of `querySPARQL` handles. -/
def isCaughtFailure (oc : FetchOutcome) : Bool :=
  match oc with
  | FetchOutcome.okNoBindings => false
  | FetchOutcome.okBindings _ => false
  | _ => true

/-- The constant-zero `Math.random` stream used by concrete witnesses. -/
def rngZero : ℕ → ℚ := fun _ => 0


/-! ## The TTL cache -/

/-- One entry of the module-level `queryCache` object: the `Date.now()`
timestamp (milliseconds) recorded at store time and the stored result. -/
structure CacheEntry where
  timestamp : ℤ
  data : QueryResult
deriving DecidableEq

/-- The `queryCache` object: query text mapped to its entry, `none` for
absent keys. -/
abbrev Cache := String → Option CacheEntry

/-- The cache at module load: no keys. -/
def emptyCache : Cache := fun _ => none

/-- The assignment `queryCache[cacheKey] = entry`. -/
def cacheInsert (c : Cache) (k : String) (e : CacheEntry) : Cache :=
  fun k2 => if k2 = k then some e else c k2

/-- `(Date.now() - timestamp) / (1000 * 60)` from line 111, the entry age
in minutes; the JS float division of two integers is the exact rational
`Rat.divInt`. -/
def cacheAgeMinutes (now ts : ℤ) : ℚ :=
  Rat.divInt (now - ts) (1000 * 60)

/-- `querySPARQLWithCache` from `wikidata.js` lines 105-128.  `tCheck`
and `tStore` are the two `Date.now()` reads (line 111 and line 123), `oc`
and `rng` the oracles consumed if the query executes, and `cache` the
cache object before the call.  Returns the result, the cache object after
the call, and whether line 119 executed (a network request was issued). -/
def querySPARQLWithCache (q : String) (cacheTimeMinutes : ℚ := 60)
    (tCheck tStore : ℤ := 0) (oc : FetchOutcome := FetchOutcome.okBindings [])
    (rng : ℕ → ℚ := rngZero) (cache : Cache := emptyCache) :
    QueryResult × Cache × Bool :=
  match cache q with
  | some e =>
    if cacheAgeMinutes tCheck e.timestamp < cacheTimeMinutes then
      (e.data, cache, false)
    else
      (querySPARQL q oc rng,
       cacheInsert cache q ⟨tStore, querySPARQL q oc rng⟩, true)
  | none =>
    (querySPARQL q oc rng,
     cacheInsert cache q ⟨tStore, querySPARQL q oc rng⟩, true)

/-! ## The retry wrapper -/

/-- Modelled from the spec: the outcome of `queryWithRetry`, which is
absent from the checked-in sources (section 4.3 of the spec documents it
as a standalone, currently-unused utility): the bindings on success, the
original error when it is fatal (does not contain "429"), or the
`MaxRetriesExceeded` failure. -/
inductive RetryOutcome where
  | success (bs : List BindingRecord)
  | fatal (e : String)
  | maxRetriesExceeded
deriving DecidableEq

/-- Modelled from the spec: the retry loop of `queryWithRetry`.
`client n` is the outcome of attempt number `n` (`n` is the value of the
retry counter at that attempt), `fuel` the number of attempts still
allowed.  On an error whose message contains "429" the counter is
incremented and, when an attempt remains, a wait of `2^retries` seconds is
recorded before retrying; a non-"429" error is fatal immediately; an
exhausted budget fails with `MaxRetriesExceeded`.  Returns the outcome and
the list of waits (in seconds) performed, in order. -/
def runRetry (client : ℕ → Except String (List BindingRecord)) :
    ℕ → ℕ → RetryOutcome × List ℕ
  | 0, _ => (RetryOutcome.maxRetriesExceeded, [])
  | fuel + 1, retries =>
    match client retries with
    | Except.ok bs => (RetryOutcome.success bs, [])
    | Except.error e =>
      if jsIncludes e "429" then
        match fuel with
        | 0 => (RetryOutcome.maxRetriesExceeded, [])
        | _ + 1 =>
          ((runRetry client fuel (retries + 1)).1,
           2 ^ (retries + 1) :: (runRetry client fuel (retries + 1)).2)
      else (RetryOutcome.fatal e, [])

/-- Modelled from the spec: `queryWithRetry(query, maxRetries = 3)`; the
query string is abstracted away into the per-attempt client outcomes. -/
def queryWithRetry (client : ℕ → Except String (List BindingRecord))
    (maxRetries : ℕ := 3) : RetryOutcome × List ℕ :=
  runRetry client maxRetries 0

/-! ## Concrete behavior checks of the embedded semantics -/

/-- Spot checks of the embedded `Number(string)` semantics on the kinds
of strings the pipeline sees. -/
theorem jsStrToNumber_behavior :
    jsStrToNumber "42" = some (JsNum.finite 42) ∧
    jsStrToNumber "" = some (JsNum.finite 0) ∧
    jsStrToNumber "  " = some (JsNum.finite 0) ∧
    jsStrToNumber "Q5" = none ∧
    jsStrToNumber "51.5074" = some (JsNum.finite (Rat.divInt 515074 10000)) ∧
    jsStrToNumber "-0.1278" = some (JsNum.finite (-Rat.divInt 1278 10000)) ∧
    jsStrToNumber "1e3" = some (JsNum.finite 1000) ∧
    jsStrToNumber "0x10" = some (JsNum.finite 16) ∧
    jsStrToNumber "-Infinity" = some JsNum.negInf ∧
    jsStrToNumber "12 3" = none ∧
    jsStrToNumber "1800" = some (JsNum.finite 1800) ∧
    jsStrToNumber "." = none ∧
    jsStrToNumber "+" = none := by decide

/-- The end-to-end normalization check of the spec: `count` becomes the
number 42 while `id` stays the string "Q5". -/
theorem processWikidataResults_endToEnd :
    processWikidataResults
      (ResultsValue.arr [[("count", Cell.obj (CellVal.str "42")),
                          ("id", Cell.obj (CellVal.str "Q5"))]]) =
      [[("count", NormValue.num (JsNum.finite 42)), ("id", NormValue.str "Q5")]] := by
  decide

/-- Spot checks of the embedded `String.prototype.includes`. -/
theorem jsIncludes_behavior :
    jsIncludes "a gender b" "gender" = true ∧
    jsIncludes "SELECT ?x" "gender" = false := by decide

/-- The retry scenarios of the spec: success on the third attempt after
waits of 2 and 4 seconds; exhaustion after three "429" attempts; and an
immediate fatal error without waits. -/
theorem queryWithRetry_behavior :
    queryWithRetry (fun n => if n < 2 then Except.error "HTTP 429" else Except.ok []) 3 =
      (RetryOutcome.success [], [2, 4]) ∧
    queryWithRetry (fun _ => Except.error "HTTP 429") 3 =
      (RetryOutcome.maxRetriesExceeded, [2, 4]) ∧
    queryWithRetry (fun _ => Except.error "timeout") 3 =
      (RetryOutcome.fatal "timeout", []) := by decide

/-! ## Theorems about the plain client (claims C2, C3, C6) -/

/-- C2 (amended): `querySPARQL` completes normally on every outcome (its
return type has no error alternative); every error thrown inside the
`try` body is swallowed by the `catch`, which returns the mock fallback;
and the single outcome producing a non-array result is a parsed body with
`results` present but `bindings` missing, where the caller receives JS
`undefined` rather than an empty or mock result set. -/
theorem querySPARQL_swallowsErrors (q : String) (oc : FetchOutcome) (rng : ℕ → ℚ) :
    (∀ e, tryQuerySPARQL oc = Except.error e →
      querySPARQL q oc rng = QueryResult.arr (generateMockData q rng)) ∧
    (∀ r, tryQuerySPARQL oc = Except.ok r → querySPARQL q oc rng = r) ∧
    (querySPARQL q oc rng = QueryResult.undef ↔ oc = FetchOutcome.okNoBindings) := by
  cases oc <;> simp [querySPARQL, tryQuerySPARQL]

/-- C2 witness: a concrete network failure is swallowed into the mock
fallback. -/
theorem querySPARQL_swallowsErrors_witness :
    querySPARQL "SELECT ?x" (FetchOutcome.networkError "Failed to fetch") rngZero =
      QueryResult.arr (generateMockData "SELECT ?x" rngZero) :=
  (querySPARQL_swallowsErrors "SELECT ?x" (FetchOutcome.networkError "Failed to fetch")
    rngZero).1 (JsError.error "Failed to fetch") rfl

/-- C2 counterexample: on a success response whose parsed body has
`results` but no `bindings`, `querySPARQL` returns JS `undefined`, which
is neither an empty result set nor placeholder data (the mock for this
query is the empty array, and `undefined` differs from it). -/
theorem querySPARQL_undef_cex :
    querySPARQL "SELECT ?x" FetchOutcome.okNoBindings rngZero = QueryResult.undef ∧
    QueryResult.undef ≠ QueryResult.arr [] ∧
    generateMockData "SELECT ?x" rngZero = [] := by
  refine ⟨rfl, by decide, rfl⟩

/-- C3 (amended): on a non-success HTTP status the `try` body throws an
error whose message carries the status code and reason phrase, but the
`catch` swallows it: the caller receives the mock fallback, not the
error. -/
theorem querySPARQL_httpErrorSwallowed (q : String) (st : ℕ) (stx : String) (rng : ℕ → ℚ) :
    tryQuerySPARQL (FetchOutcome.httpError st stx) =
      Except.error (JsError.error ("SPARQL query failed: " ++ toString st ++ " " ++ stx)) ∧
    querySPARQL q (FetchOutcome.httpError st stx) rng =
      QueryResult.arr (generateMockData q rng) :=
  ⟨rfl, rfl⟩

/-- C3 counterexample: on a concrete 503 response the caller of
`querySPARQL` receives the ordinary value `[]` — no error carrying the
status reaches it. -/
theorem querySPARQL_httpError_cex :
    querySPARQL "SELECT ?x" (FetchOutcome.httpError 503 "Service Unavailable") rngZero =
      QueryResult.arr [] := by
  decide

/-- C6 (amended): a malformed body does not escape: a JSON parse failure
and a body without `results` (the `TypeError` at `data.results.bindings`)
are caught like any other error and yield the mock fallback, while a body
with `results` but no `bindings` yields `undefined` without any error. -/
theorem querySPARQL_malformedBody (q m : String) (rng : ℕ → ℚ) :
    querySPARQL q (FetchOutcome.jsonError m) rng =
      QueryResult.arr (generateMockData q rng) ∧
    querySPARQL q FetchOutcome.okNoResults rng =
      QueryResult.arr (generateMockData q rng) ∧
    querySPARQL q FetchOutcome.okNoBindings rng = QueryResult.undef :=
  ⟨rfl, rfl, rfl⟩

/-- C6 counterexample: a concrete parse failure and a concrete
missing-`results` body both produce the ordinary value `[]` for the
caller instead of propagating an unhandled error. -/
theorem querySPARQL_parseFailure_cex :
    querySPARQL "SELECT ?y" (FetchOutcome.jsonError "Unexpected token") rngZero =
      QueryResult.arr [] ∧
    querySPARQL "SELECT ?y" FetchOutcome.okNoResults rngZero = QueryResult.arr [] := by
  exact ⟨rfl, rfl⟩

/-! ## Theorems about the TTL cache (claims C4, C7, C9) -/

/-- Reading back the key just written. -/
theorem cacheInsert_self (c : Cache) (k : String) (e : CacheEntry) :
    cacheInsert c k e k = some e := by
  simp [cacheInsert]

/-- Writing one key leaves every other key unchanged. -/
theorem cacheInsert_other (c : Cache) (k : String) (e : CacheEntry) (k2 : String)
    (h : k2 ≠ k) : cacheInsert c k e k2 = c k2 := by
  simp [cacheInsert, h]

/-- A cache entry is never younger than zero minutes once the clock has
reached its timestamp. -/
theorem cacheAgeMinutes_nonneg (now ts : ℤ) (h : ts ≤ now) :
    0 ≤ cacheAgeMinutes now ts := by
  unfold cacheAgeMinutes
  rw [Rat.divInt_eq_div]
  apply div_nonneg
  · exact_mod_cast Int.sub_nonneg.mpr h
  · norm_num

/-- A call on a key absent from the cache fetches and stores. -/
theorem querySPARQLWithCache_miss (q : String) (ttl : ℚ) (tc ts : ℤ)
    (oc : FetchOutcome) (rng : ℕ → ℚ) (cache : Cache) (h : cache q = none) :
    querySPARQLWithCache q ttl tc ts oc rng cache =
      (querySPARQL q oc rng,
       cacheInsert cache q ⟨ts, querySPARQL q oc rng⟩, true) := by
  simp [querySPARQLWithCache, h]

/-- A call on a stored key inside the TTL window returns the stored data
without fetching; outside the window it re-fetches and overwrites. -/
theorem querySPARQLWithCache_hit_or_refresh (q : String) (ttl : ℚ) (tc ts : ℤ)
    (oc : FetchOutcome) (rng : ℕ → ℚ) (cache : Cache) (e : CacheEntry)
    (h : cache q = some e) :
    (cacheAgeMinutes tc e.timestamp < ttl →
      querySPARQLWithCache q ttl tc ts oc rng cache = (e.data, cache, false)) ∧
    (¬ cacheAgeMinutes tc e.timestamp < ttl →
      querySPARQLWithCache q ttl tc ts oc rng cache =
        (querySPARQL q oc rng,
         cacheInsert cache q ⟨ts, querySPARQL q oc rng⟩, true)) := by
  constructor <;> intro hlt <;> simp [querySPARQLWithCache, h, hlt]

/-- C4: starting from a cache without the key, the first call fetches and
stores `{timestamp: tStore1, data: result}`; a second call with the same
query whose age check passes (`(now − storedTimestamp)/60000 < ttl`)
returns the stored data without fetching and leaves the cache unchanged;
a second call whose age check fails fetches again and overwrites the
entry with the new timestamp and result; and with `ttl = 0` and a
monotone clock the second call always fetches. -/
theorem querySPARQLWithCache_ttl (q : String) (ttl : ℚ) (t1 t1' t2 t2' : ℤ)
    (oc1 oc2 : FetchOutcome) (rng1 rng2 : ℕ → ℚ) (cache0 : Cache)
    (hmiss : cache0 q = none) :
    (querySPARQLWithCache q ttl t1 t1' oc1 rng1 cache0).2.2 = true ∧
    (querySPARQLWithCache q ttl t1 t1' oc1 rng1 cache0).2.1 q =
      some ⟨t1', (querySPARQLWithCache q ttl t1 t1' oc1 rng1 cache0).1⟩ ∧
    (cacheAgeMinutes t2 t1' < ttl →
      querySPARQLWithCache q ttl t2 t2' oc2 rng2
          (querySPARQLWithCache q ttl t1 t1' oc1 rng1 cache0).2.1 =
        ((querySPARQLWithCache q ttl t1 t1' oc1 rng1 cache0).1,
         (querySPARQLWithCache q ttl t1 t1' oc1 rng1 cache0).2.1, false)) ∧
    (¬ cacheAgeMinutes t2 t1' < ttl →
      querySPARQLWithCache q ttl t2 t2' oc2 rng2
          (querySPARQLWithCache q ttl t1 t1' oc1 rng1 cache0).2.1 =
        (querySPARQL q oc2 rng2,
         cacheInsert (querySPARQLWithCache q ttl t1 t1' oc1 rng1 cache0).2.1 q
           ⟨t2', querySPARQL q oc2 rng2⟩, true)) ∧
    (ttl = 0 → t1' ≤ t2 →
      (querySPARQLWithCache q ttl t2 t2' oc2 rng2
          (querySPARQLWithCache q ttl t1 t1' oc1 rng1 cache0).2.1).2.2 = true) := by
  rw [querySPARQLWithCache_miss q ttl t1 t1' oc1 rng1 cache0 hmiss]
  have hstored :
      cacheInsert cache0 q ⟨t1', querySPARQL q oc1 rng1⟩ q =
        some ⟨t1', querySPARQL q oc1 rng1⟩ := cacheInsert_self _ _ _
  have h2 := querySPARQLWithCache_hit_or_refresh q ttl t2 t2' oc2 rng2
    (cacheInsert cache0 q ⟨t1', querySPARQL q oc1 rng1⟩)
    ⟨t1', querySPARQL q oc1 rng1⟩ hstored
  refine ⟨rfl, hstored, fun hlt => h2.1 hlt, fun hge => h2.2 hge, fun h0 hmono => ?_⟩
  have hge : ¬ cacheAgeMinutes t2 t1' < ttl := by
    rw [h0]
    exact not_lt.mpr (cacheAgeMinutes_nonneg t2 t1' hmono)
  rw [h2.2 hge]

/-- C4 witness: a fetch at time 0, then a hit 30 seconds later inside the
default 60-minute window. -/
theorem querySPARQLWithCache_ttl_witness :
    (querySPARQLWithCache "SELECT ?x" 60 0 0 (FetchOutcome.okBindings [])
      rngZero emptyCache).2.2 = true ∧
    querySPARQLWithCache "SELECT ?x" 60 30000 30000 FetchOutcome.okNoResults rngZero
        (querySPARQLWithCache "SELECT ?x" 60 0 0 (FetchOutcome.okBindings [])
          rngZero emptyCache).2.1 =
      ((querySPARQLWithCache "SELECT ?x" 60 0 0 (FetchOutcome.okBindings [])
          rngZero emptyCache).1,
       (querySPARQLWithCache "SELECT ?x" 60 0 0 (FetchOutcome.okBindings [])
          rngZero emptyCache).2.1, false) := by
  have h := querySPARQLWithCache_ttl "SELECT ?x" 60 0 0 30000 30000
    (FetchOutcome.okBindings []) FetchOutcome.okNoResults rngZero rngZero emptyCache rfl
  exact ⟨h.1, h.2.2.1 (by decide)⟩

/-- C7: the cache key is the verbatim query text: for two different
query strings (say differing by whitespace only), both calls fetch, and
the final cache holds a separate entry under each text. -/
theorem querySPARQLWithCache_distinctKeys (q1 q2 : String) (ttl : ℚ)
    (t1 t1' t2 t2' : ℤ) (oc1 oc2 : FetchOutcome) (rng1 rng2 : ℕ → ℚ)
    (cache0 : Cache) (hq : q1 ≠ q2) (h1 : cache0 q1 = none) (h2 : cache0 q2 = none) :
    (querySPARQLWithCache q1 ttl t1 t1' oc1 rng1 cache0).2.2 = true ∧
    (querySPARQLWithCache q2 ttl t2 t2' oc2 rng2
      (querySPARQLWithCache q1 ttl t1 t1' oc1 rng1 cache0).2.1).2.2 = true ∧
    (querySPARQLWithCache q2 ttl t2 t2' oc2 rng2
        (querySPARQLWithCache q1 ttl t1 t1' oc1 rng1 cache0).2.1).2.1 q1 =
      some ⟨t1', (querySPARQLWithCache q1 ttl t1 t1' oc1 rng1 cache0).1⟩ ∧
    (querySPARQLWithCache q2 ttl t2 t2' oc2 rng2
        (querySPARQLWithCache q1 ttl t1 t1' oc1 rng1 cache0).2.1).2.1 q2 =
      some ⟨t2', (querySPARQLWithCache q2 ttl t2 t2' oc2 rng2
        (querySPARQLWithCache q1 ttl t1 t1' oc1 rng1 cache0).2.1).1⟩ := by
  rw [querySPARQLWithCache_miss q1 ttl t1 t1' oc1 rng1 cache0 h1]
  have h2' : cacheInsert cache0 q1 ⟨t1', querySPARQL q1 oc1 rng1⟩ q2 = none := by
    rw [cacheInsert_other _ _ _ _ (Ne.symm hq)]
    exact h2
  rw [querySPARQLWithCache_miss q2 ttl t2 t2' oc2 rng2 _ h2']
  dsimp only
  refine ⟨rfl, rfl, ?_, ?_⟩
  · rw [cacheInsert_other _ _ _ _ hq, cacheInsert_self]
  · rw [cacheInsert_self]

/-- C7 witness: two query texts differing only in whitespace, both
fetching from an empty cache and stored under separate keys. -/
theorem querySPARQLWithCache_distinctKeys_witness :
    (querySPARQLWithCache "SELECT ?a" 60 0 0 (FetchOutcome.okBindings [])
      rngZero emptyCache).2.2 = true ∧
    (querySPARQLWithCache "SELECT  ?a" 60 5 5 (FetchOutcome.okBindings [])
      rngZero (querySPARQLWithCache "SELECT ?a" 60 0 0 (FetchOutcome.okBindings [])
        rngZero emptyCache).2.1).2.2 = true ∧
    (querySPARQLWithCache "SELECT  ?a" 60 5 5 (FetchOutcome.okBindings [])
      rngZero (querySPARQLWithCache "SELECT ?a" 60 0 0 (FetchOutcome.okBindings [])
        rngZero emptyCache).2.1).2.1 "SELECT ?a" =
      some ⟨0, (querySPARQLWithCache "SELECT ?a" 60 0 0 (FetchOutcome.okBindings [])
        rngZero emptyCache).1⟩ ∧
    (querySPARQLWithCache "SELECT  ?a" 60 5 5 (FetchOutcome.okBindings [])
      rngZero (querySPARQLWithCache "SELECT ?a" 60 0 0 (FetchOutcome.okBindings [])
        rngZero emptyCache).2.1).2.1 "SELECT  ?a" =
      some ⟨5, (querySPARQLWithCache "SELECT  ?a" 60 5 5 (FetchOutcome.okBindings [])
        rngZero (querySPARQLWithCache "SELECT ?a" 60 0 0 (FetchOutcome.okBindings [])
          rngZero emptyCache).2.1).1⟩ :=
  querySPARQLWithCache_distinctKeys "SELECT ?a" "SELECT  ?a" 60 0 0 5 5
    (FetchOutcome.okBindings []) (FetchOutcome.okBindings []) rngZero rngZero
    emptyCache (by decide) rfl rfl

/-- On every outcome the `try` body throws on, `querySPARQL` returns the
mock fallback. -/
theorem querySPARQL_of_caughtFailure (q : String) (oc : FetchOutcome) (rng : ℕ → ℚ)
    (h : isCaughtFailure oc = true) :
    querySPARQL q oc rng = QueryResult.arr (generateMockData q rng) := by
  cases oc <;> simp_all [isCaughtFailure, querySPARQL, tryQuerySPARQL]

/-- C9: when the fetch fails, the cache stores the mock fallback exactly
like a success: the entry gets the store-time timestamp and the mock data
(gender mock when the text contains "gender", else discovery mock when it
contains "discovery", else `[]`), and a second call with the same text
inside the TTL window returns the cached fallback without fetching. -/
theorem querySPARQLWithCache_failureCached (q : String) (ttl : ℚ)
    (t1 t1' t2 t2' : ℤ) (oc : FetchOutcome) (oc2 : FetchOutcome)
    (rng rng2 : ℕ → ℚ) (cache0 : Cache)
    (hfail : isCaughtFailure oc = true) (hmiss : cache0 q = none) :
    (querySPARQLWithCache q ttl t1 t1' oc rng cache0).1 =
      QueryResult.arr (generateMockData q rng) ∧
    (querySPARQLWithCache q ttl t1 t1' oc rng cache0).2.2 = true ∧
    (querySPARQLWithCache q ttl t1 t1' oc rng cache0).2.1 q =
      some ⟨t1', QueryResult.arr (generateMockData q rng)⟩ ∧
    (jsIncludes q "gender" = true →
      generateMockData q rng = generateGenderMockData rng) ∧
    (jsIncludes q "gender" = false → jsIncludes q "discovery" = true →
      generateMockData q rng = generateDiscoveryMockData rng) ∧
    (jsIncludes q "gender" = false → jsIncludes q "discovery" = false →
      generateMockData q rng = []) ∧
    (cacheAgeMinutes t2 t1' < ttl →
      querySPARQLWithCache q ttl t2 t2' oc2 rng2
          (querySPARQLWithCache q ttl t1 t1' oc rng cache0).2.1 =
        (QueryResult.arr (generateMockData q rng),
         (querySPARQLWithCache q ttl t1 t1' oc rng cache0).2.1, false)) := by
  have hq := querySPARQL_of_caughtFailure q oc rng hfail
  have hfirst := querySPARQLWithCache_miss q ttl t1 t1' oc rng cache0 hmiss
  rw [hq] at hfirst
  rw [hfirst]
  have hstored : cacheInsert cache0 q ⟨t1', QueryResult.arr (generateMockData q rng)⟩ q =
      some ⟨t1', QueryResult.arr (generateMockData q rng)⟩ := cacheInsert_self _ _ _
  have h2 := querySPARQLWithCache_hit_or_refresh q ttl t2 t2' oc2 rng2
    (cacheInsert cache0 q ⟨t1', QueryResult.arr (generateMockData q rng)⟩)
    ⟨t1', QueryResult.arr (generateMockData q rng)⟩ hstored
  refine ⟨rfl, rfl, hstored, ?_, ?_, ?_, fun hlt => h2.1 hlt⟩
  · intro hg
    simp [generateMockData, hg]
  · intro hg hd
    simp [generateMockData, hg, hd]
  · intro hg hd
    simp [generateMockData, hg, hd]

/-- C9 witness: a 503 failure for a keyword-free query caches `[]` and a
call 30 seconds later returns it without fetching. -/
theorem querySPARQLWithCache_failureCached_witness :
    (querySPARQLWithCache "SELECT ?x" 60 0 0
      (FetchOutcome.httpError 503 "Service Unavailable") rngZero emptyCache).2.1
        "SELECT ?x" =
      some ⟨0, QueryResult.arr (generateMockData "SELECT ?x" rngZero)⟩ ∧
    querySPARQLWithCache "SELECT ?x" 60 30000 30000 (FetchOutcome.okBindings [])
        rngZero (querySPARQLWithCache "SELECT ?x" 60 0 0
          (FetchOutcome.httpError 503 "Service Unavailable") rngZero emptyCache).2.1 =
      (QueryResult.arr (generateMockData "SELECT ?x" rngZero),
       (querySPARQLWithCache "SELECT ?x" 60 0 0
         (FetchOutcome.httpError 503 "Service Unavailable") rngZero emptyCache).2.1,
       false) := by
  have h := querySPARQLWithCache_failureCached "SELECT ?x" 60 0 0 30000 30000
    (FetchOutcome.httpError 503 "Service Unavailable") (FetchOutcome.okBindings [])
    rngZero rngZero emptyCache rfl rfl
  exact ⟨h.2.2.1, h.2.2.2.2.2.2 (by decide)⟩

/-! ## Theorems about the retry wrapper (claim C1) -/

/-- When every attempt in the remaining budget fails with a "429" error,
the retry loop exhausts its budget, failing with `MaxRetriesExceeded`
after waiting `2^(r+1), 2^(r+2), …` seconds between consecutive
attempts. -/
theorem runRetry_allFail (client : ℕ → Except String (List BindingRecord)) :
    ∀ (fuel r : ℕ),
      (∀ n, r ≤ n → n < r + fuel → ∃ e, client n = Except.error e ∧
        jsIncludes e "429" = true) →
      runRetry client fuel r =
        (RetryOutcome.maxRetriesExceeded,
         (List.range (fuel - 1)).map (fun i => 2 ^ (r + i + 1)))
  | 0, r, _ => by simp [runRetry]
  | 1, r, h => by
    obtain ⟨e, he, h429⟩ := h r le_rfl (by omega)
    simp [runRetry, he, h429]
  | (fuel + 2), r, h => by
    obtain ⟨e, he, h429⟩ := h r le_rfl (by omega)
    have ih := runRetry_allFail client (fuel + 1) (r + 1)
      (fun n hn1 hn2 => h n (by omega) (by omega))
    have hl : (List.range (fuel + 2 - 1)).map (fun i => 2 ^ (r + i + 1)) =
        2 ^ (r + 1) :: (List.range (fuel + 1 - 1)).map (fun i => 2 ^ (r + 1 + i + 1)) := by
      rw [show fuel + 2 - 1 = fuel + 1 from rfl, show fuel + 1 - 1 = fuel from rfl,
        List.range_succ_eq_map, List.map_cons, List.map_map]
      refine congrArg₂ _ (by norm_num) ?_
      apply List.map_congr_left
      intro i _
      simp only [Function.comp]
      congr 1
      omega
    rw [hl, runRetry, he]
    simp only [h429, if_true]
    rw [ih]

/-- C1 (spec-modelled): the `queryWithRetry` contract.  A first-attempt
error without "429" in its message is fatal immediately, with no waits; a
first-attempt "429" error increments the counter, waits `2^1` seconds and
continues with the remaining budget; and when every attempt fails with a
"429" error the call fails with `MaxRetriesExceeded` after
`maxRetries` attempts, having waited `2^1, …, 2^(maxRetries−1)` seconds
between them. -/
theorem queryWithRetry_contract (client : ℕ → Except String (List BindingRecord))
    (m : ℕ) :
    (∀ e, client 0 = Except.error e → jsIncludes e "429" = false → 1 ≤ m →
      queryWithRetry client m = (RetryOutcome.fatal e, [])) ∧
    (∀ e, client 0 = Except.error e → jsIncludes e "429" = true → 2 ≤ m →
      queryWithRetry client m =
        ((runRetry client (m - 1) 1).1, 2 ^ 1 :: (runRetry client (m - 1) 1).2)) ∧
    ((∀ n, n < m → ∃ e, client n = Except.error e ∧ jsIncludes e "429" = true) →
      queryWithRetry client m =
        (RetryOutcome.maxRetriesExceeded,
         (List.range (m - 1)).map (fun i => 2 ^ (i + 1)))) := by
  refine ⟨?_, ?_, ?_⟩
  · intro e he h429 hm
    obtain ⟨k, rfl⟩ : ∃ k, m = k + 1 := ⟨m - 1, by omega⟩
    simp [queryWithRetry, runRetry, he, h429]
  · intro e he h429 hm
    obtain ⟨k, rfl⟩ : ∃ k, m = k + 2 := ⟨m - 2, by omega⟩
    simp [queryWithRetry, runRetry, he, h429]
  · intro h
    have := runRetry_allFail client m 0 (fun n hn1 hn2 => h n (by omega))
    simpa [queryWithRetry] using this

/-- C1 witness: a client failing with a non-429 error is fatal at once;
a client always failing with "429" exhausts the default budget of three
attempts with waits of 2 and 4 seconds. -/
theorem queryWithRetry_contract_witness :
    queryWithRetry (fun _ => Except.error "boom") 3 = (RetryOutcome.fatal "boom", []) ∧
    queryWithRetry (fun _ => Except.error "HTTP 429") 3 =
      (RetryOutcome.maxRetriesExceeded, [2, 4]) := by
  constructor
  · exact (queryWithRetry_contract (fun _ => Except.error "boom") 3).1 "boom" rfl
      (by decide) (by omega)
  · have h := (queryWithRetry_contract (fun _ => Except.error "HTTP 429") 3).2.2
      (fun n _ => ⟨"HTTP 429", rfl, by decide⟩)
    rw [h]
    rfl

/-! ## Theorems about the result normalizer (claims C5, C8, C10) -/

/-- In a record with no duplicate keys, a key determines its cell. -/
theorem keys_nodup_val_unique {β : Type} {l : List (String × β)}
    (hnd : (l.map Prod.fst).Nodup) {k : String} {a b : β}
    (ha : (k, a) ∈ l) (hb : (k, b) ∈ l) : a = b := by
  induction l with
  | nil => cases ha
  | cons p t ih =>
    simp only [List.map_cons, List.nodup_cons] at hnd
    rcases List.mem_cons.mp ha with rfl | ha2
    · rcases List.mem_cons.mp hb with h | hb2
      · exact ((Prod.mk.injEq _ _ _ _).mp h.symm).2
      · exact absurd (List.mem_map_of_mem Prod.fst hb2) (by simpa using hnd.1)
    · rcases List.mem_cons.mp hb with h | hb2
      · subst h
        exact absurd (List.mem_map_of_mem Prod.fst ha2) (by simpa using hnd.1)
      · exact ih hnd.2 ha2 hb2

/-- The normalizer keeps exactly the keys whose cell has a defined
value, in order. -/
theorem processItem_keys (item : BindingRecord) :
    (processItem item).map Prod.fst =
      (item.filter (fun p => definedVal p.2)).map Prod.fst := by
  induction item with
  | nil => rfl
  | cons p t ih =>
    rcases p with ⟨k, c⟩
    cases c with
    | nullish => simpa [processItem, definedVal, List.filter_cons] using ih
    | obj v =>
      cases v with
      | undef => simpa [processItem, definedVal, List.filter_cons] using ih
      | str s =>
        simp only [processItem, List.filterMap_cons, definedVal, List.filter_cons,
          if_true, List.map_cons]
        exact congrArg _ ih

/-- A key with a defined string value is kept, coerced by the `isNaN`
rule. -/
theorem processItem_mem_defined (item : BindingRecord) (k s : String)
    (hmem : (k, Cell.obj (CellVal.str s)) ∈ item) :
    (k, coerceNorm k s) ∈ processItem item :=
  List.mem_filterMap.mpr ⟨(k, Cell.obj (CellVal.str s)), hmem, rfl⟩

/-- A key whose cell has no defined value is omitted (given no duplicate
keys). -/
theorem processItem_not_mem (item : BindingRecord) (k : String) (c : Cell)
    (hnd : (item.map Prod.fst).Nodup) (hc : (k, c) ∈ item)
    (hdef : definedVal c = false) (v : NormValue) : (k, v) ∉ processItem item := by
  intro hv
  obtain ⟨⟨k2, c2⟩, hmem2, heq⟩ := List.mem_filterMap.mp hv
  cases c2 with
  | nullish => simp at heq
  | obj v2 =>
    cases v2 with
    | undef => simp at heq
    | str s =>
      simp only [Option.some.injEq, Prod.mk.injEq] at heq
      obtain ⟨rfl, _⟩ := heq
      have : c = Cell.obj (CellVal.str s) := keys_nodup_val_unique hnd hc hmem2
      rw [this] at hdef
      simp [definedVal] at hdef

/-- C5: normalizing a sequence of binding records yields a sequence of
the same length and order; each output record keeps exactly the input's
variable names whose cell has a defined value (absent or undefined cells
are omitted, no null-filling); a value whose string parses as a number
(JS `isNaN` semantics) under a key other than `id` becomes that number,
and every other value stays the very string. -/
theorem processWikidataResults_normalizes (rs : List BindingRecord) :
    (processWikidataResults (ResultsValue.arr rs)).length = rs.length ∧
    (∀ i (hi : i < rs.length)
      (hi2 : i < (processWikidataResults (ResultsValue.arr rs)).length),
      (processWikidataResults (ResultsValue.arr rs)).get ⟨i, hi2⟩ =
        processItem (rs.get ⟨i, hi⟩)) ∧
    (∀ item : BindingRecord,
      (processItem item).map Prod.fst =
        (item.filter (fun p => definedVal p.2)).map Prod.fst ∧
      (∀ k s, (k, Cell.obj (CellVal.str s)) ∈ item →
        (∃ x, jsStrToNumber s = some x ∧ k ≠ "id" ∧
          (k, NormValue.num x) ∈ processItem item) ∨
        ((jsStrToNumber s = none ∨ k = "id") ∧
          (k, NormValue.str s) ∈ processItem item)) ∧
      (∀ k c, (item.map Prod.fst).Nodup → (k, c) ∈ item → definedVal c = false →
        ∀ v, (k, v) ∉ processItem item)) := by
  refine ⟨by simp [processWikidataResults], ?_, fun item =>
    ⟨processItem_keys item, ?_, fun k c hnd hc hdef v =>
      processItem_not_mem item k c hnd hc hdef v⟩⟩
  · intro i hi hi2
    simp [processWikidataResults, List.get_eq_getElem]
  · intro k s hmem
    have h := processItem_mem_defined item k s hmem
    rcases hn : jsStrToNumber s with _ | x
    · rw [show coerceNorm k s = NormValue.str s from by simp [coerceNorm, hn]] at h
      exact Or.inr ⟨Or.inl rfl, h⟩
    · by_cases hk : k = "id"
      · rw [show coerceNorm k s = NormValue.str s from by simp [coerceNorm, hn, hk]] at h
        exact Or.inr ⟨Or.inr hk, h⟩
      · rw [show coerceNorm k s = NormValue.num x from by simp [coerceNorm, hn, hk]] at h
        exact Or.inl ⟨x, rfl, hk, h⟩

/-- C5 witness: the record `{count: {value: "42"}, id: {value: "Q5"}}`
normalizes with `count` converted to the number 42 and `id` kept as the
string "Q5". -/
theorem processWikidataResults_normalizes_witness :
    ("count", NormValue.num (JsNum.finite 42)) ∈
      processItem [("count", Cell.obj (CellVal.str "42")),
                   ("id", Cell.obj (CellVal.str "Q5"))] ∧
    ("id", NormValue.str "Q5") ∈
      processItem [("count", Cell.obj (CellVal.str "42")),
                   ("id", Cell.obj (CellVal.str "Q5"))] := by
  have hb := ((processWikidataResults_normalizes []).2.2
    [("count", Cell.obj (CellVal.str "42")), ("id", Cell.obj (CellVal.str "Q5"))]).2.1
  constructor
  · rcases hb "count" "42" (by decide) with ⟨x, hx, _, hmem⟩ | ⟨hbad, _⟩
    · rw [show jsStrToNumber "42" = some (JsNum.finite 42) from by decide] at hx
      obtain rfl := (Option.some.inj hx).symm
      exact hmem
    · rcases hbad with h | h
      · exact absurd h (by decide)
      · exact absurd h (by decide)
  · rcases hb "id" "Q5" (by decide) with ⟨x, hx, hk, hmem⟩ | ⟨_, hmem⟩
    · exact absurd rfl hk
    · exact hmem

/-- C8: normalizing the empty array gives the empty sequence, and any
non-array argument (`null`, `undefined`, or any other value) gives the
empty sequence through the guard, the function being total (never
throwing). -/
theorem processWikidataResults_guard (v : ResultsValue) :
    processWikidataResults (ResultsValue.arr []) = [] ∧
    ((∀ rs, v ≠ ResultsValue.arr rs) → processWikidataResults v = []) := by
  refine ⟨rfl, fun h => ?_⟩
  cases v with
  | jsNull => rfl
  | jsUndefined => rfl
  | nonArrayValue => rfl
  | arr rs => exact absurd rfl (h rs)

/-- C8 witness: the three concrete non-array arguments all yield `[]`. -/
theorem processWikidataResults_guard_witness :
    processWikidataResults ResultsValue.jsNull = [] ∧
    processWikidataResults ResultsValue.jsUndefined = [] ∧
    processWikidataResults ResultsValue.nonArrayValue = [] :=
  ⟨(processWikidataResults_guard ResultsValue.jsNull).2
      (fun _ h => ResultsValue.noConfusion h),
   (processWikidataResults_guard ResultsValue.jsUndefined).2
      (fun _ h => ResultsValue.noConfusion h),
   (processWikidataResults_guard ResultsValue.nonArrayValue).2
      (fun _ h => ResultsValue.noConfusion h)⟩

/-- A fully whitespace character list trims to nothing. -/
theorem wsTrim_eq_nil (l : List Char) (h : l.all isWsChar = true) : wsTrim l = [] := by
  unfold wsTrim
  have h1 : l.dropWhile isWsChar = [] := by
    rw [List.dropWhile_eq_nil_iff]
    intro x hx
    exact List.all_eq_true.mp h x hx
  rw [h1]
  rfl

/-- `Number(s)` of an empty or whitespace-only string is zero, so
`isNaN(s)` is false on it. -/
theorem jsStrToNumber_wsOnly (s : String) (h : s.toList.all isWsChar = true) :
    jsStrToNumber s = some (JsNum.finite 0) := by
  unfold jsStrToNumber
  rw [wsTrim_eq_nil _ h]

/-- C10: an empty or whitespace-only string value under a key other than
`id` is converted to the number 0 by the normalizer (since `!isNaN('')`
holds and `Number('') = 0`), not left as a string. -/
theorem processWikidataResults_wsNumZero (rs : List BindingRecord)
    (item : BindingRecord) (k s : String) (hitem : item ∈ rs)
    (hmem : (k, Cell.obj (CellVal.str s)) ∈ item)
    (hws : s.toList.all isWsChar = true) (hk : k ≠ "id") :
    (k, NormValue.num (JsNum.finite 0)) ∈ processItem item ∧
    processItem item ∈ processWikidataResults (ResultsValue.arr rs) := by
  constructor
  · have h := processItem_mem_defined item k s hmem
    rwa [show coerceNorm k s = NormValue.num (JsNum.finite 0) from by
      simp [coerceNorm, jsStrToNumber_wsOnly s hws, hk]] at h
  · simpa [processWikidataResults] using List.mem_map_of_mem processItem hitem

/-- C10 witness: a record whose `count` value is a single space
normalizes to `count = 0`. -/
theorem processWikidataResults_wsNumZero_witness :
    ("count", NormValue.num (JsNum.finite 0)) ∈
      processItem [("count", Cell.obj (CellVal.str " "))] ∧
    processItem [("count", Cell.obj (CellVal.str " "))] ∈
      processWikidataResults (ResultsValue.arr [[("count", Cell.obj (CellVal.str " "))]]) :=
  processWikidataResults_wsNumZero [[("count", Cell.obj (CellVal.str " "))]]
    [("count", Cell.obj (CellVal.str " "))] "count" " " (by decide) (by decide)
    (by decide) (by decide)
